import Mathlib

/-!
Verification development for the WeatherAPIRedis service (`src/main.go`):
a single-route HTTP proxy that looks up weather data for a city in a
Redis-style key-value cache, falls back to an upstream HTTP provider on a
miss, and populates the cache with a fixed 12-hour expiry.

The handler `getWeather` is shallowly embedded as a pure function over its
external inputs: the result of the cache read, the upstream HTTP outcome,
the JSON marshal/unmarshal functions (abstract, since the payload is
opaque to the service), and whether the cache write succeeds.  Its output
is the HTTP response together with the ordered trace of side effects
(upstream call, cache write, log lines).  `main`'s startup sequence is
embedded as `runMain` over the environment and the Redis ping outcome.
-/

namespace WeatherProxy

/-- JSON documents, as produced by deserializing cached strings or the
upstream response body into a Go `interface\x7b\x7d`.  The service treats
payloads opaquely; `null` is the zero value left by a failed unmarshal. -/
inductive Json where
  | null
  | bool (b : Bool)
  | num (n : Int)
  | str (s : String)
  | arr (elems : List Json)
  | obj (fields : List (String × Json))

/-- An HTTP response produced by the handler: status code and JSON body
(Fiber's `c.JSON` with no explicit status defaults to 200). -/
structure Response where
  status : Nat
  body : Json

/-- Observable side effects of one handler run, in program order. -/
inductive Effect where
  | log (msg : String)
  | upstreamCall (url : String)
  | cacheWrite (key value : String) (ttlSeconds : Nat)
  deriving DecidableEq

/-- Outcome of the Redis `Get` on the cache key: a stored string
(`err == nil` in the Go code), the not-found sentinel `redis.Nil`, or any
other read error. -/
inductive CacheReadResult where
  | found (value : String)
  | redisNil
  | readErr (msg : String)
  deriving DecidableEq

/-- Outcome of `http.Get` on the upstream URL: a network error, or a
response with a status code and a raw body string. -/
inductive UpstreamResult where
  | netErr
  | resp (status : Nat) (body : String)
  deriving DecidableEq

/-- Go's `strings.ToLower`, modeled as lowercasing each character of the
string (`Char.toLower` maps the uppercase letters to lowercase and fixes
everything else). -/
def toLowerGo (s : String) : String := ⟨s.data.map Char.toLower⟩

/-- Cache key derivation, from line 82 of `src/main.go`:
`fmt.Sprintf("weather:%s", strings.ToLower(city))`. -/
def cacheKeyFor (city : String) : String := "weather:" ++ toLowerGo city

/-- The hardcoded provider base URL from line 98 of `src/main.go`. -/
def providerBaseURL : String :=
  "https://weather.visualcrossing.com/VisualCrossingWebServices/rest/services/timeline"

/-- The upstream request URL, from line 98 of `src/main.go`:
`fmt.Sprintf("...timeline/%s?key=%s", city, apiKey)`.  The city is
embedded verbatim, in its original casing. -/
def requestURL (city apiKey : String) : String :=
  providerBaseURL ++ "/" ++ city ++ "?key=" ++ apiKey

/-- A Fiber error body `fiber.Map` with the single field `error`. -/
def errBody (msg : String) : Json := .obj [("error", .str msg)]

/-- The miss continuation of `getWeather` (lines 97-128 of `src/main.go`):
upstream fetch, error propagation, best-effort cache write, response. -/
def fetchMiss (city apiKey : String) (upstream : UpstreamResult)
    (unmarshal : String → Option Json) (marshal : Json → Option String)
    (writeOk : Bool) : Response × List Effect :=
  let url := requestURL city apiKey
  match upstream with
  | .netErr =>
      (⟨500, errBody "Failed to fetch weather data"⟩, [.upstreamCall url])
  | .resp status body =>
      if status ≠ 200 then
        (⟨status, errBody "Invalid city or API error"⟩, [.upstreamCall url])
      else
        match unmarshal body with
        | none =>
            (⟨500, errBody "Failed to parse weather data"⟩, [.upstreamCall url])
        | some weatherData =>
            match marshal weatherData with
            | none =>
                (⟨200, weatherData⟩,
                  [.upstreamCall url,
                   .log "Failed to marshal weather data",
                   .log "Serving from API"])
            | some weatherJSON =>
                (⟨200, weatherData⟩,
                  [.upstreamCall url,
                   .cacheWrite (cacheKeyFor city) weatherJSON 43200] ++
                  (if writeOk then [] else [.log "Failed to cache weather data"]) ++
                  [.log "Serving from API"])

/-- The handler `getWeather` (lines 80-129 of `src/main.go`), as a pure
function of the external inputs.  On a successful cache read the stored
string is unmarshalled with the error ignored (a failed unmarshal leaves
the zero value, rendered as JSON `null`) and returned at once; on the
`redis.Nil` sentinel the miss path runs; on any other read error the
error is logged and the miss path runs. -/
def getWeather (city apiKey : String) (cacheRead : CacheReadResult)
    (upstream : UpstreamResult)
    (unmarshal : String → Option Json) (marshal : Json → Option String)
    (writeOk : Bool) : Response × List Effect :=
  match cacheRead with
  | .found cachedData =>
      (⟨200, (unmarshal cachedData).getD Json.null⟩, [.log "Serving from cache"])
  | .redisNil => fetchMiss city apiKey upstream unmarshal marshal writeOk
  | .readErr e =>
      let r := fetchMiss city apiKey upstream unmarshal marshal writeOk
      (r.1, .log ("Redis error: " ++ e) :: r.2)

/-- Whether an effect is an upstream HTTP call. -/
def Effect.isUpstreamCall : Effect → Bool
  | .upstreamCall _ => true
  | _ => false

/-- Whether an effect is a cache write. -/
def Effect.isCacheWrite : Effect → Bool
  | .cacheWrite _ _ _ => true
  | _ => false

/-- Number of cache-write effects in a trace. -/
def cacheWriteCount (effs : List Effect) : Nat :=
  (effs.filter Effect.isCacheWrite).length

/-- Number of upstream-call effects in a trace. -/
def upstreamCallCount (effs : List Effect) : Nat :=
  (effs.filter Effect.isUpstreamCall).length

/-- The process environment at startup: whether `godotenv.Load` succeeds,
and the optional values of the environment variables `main` reads
(`none` models an absent variable; Go's `os.Getenv` then returns `""`). -/
structure Env where
  dotenvOk : Bool
  weatherAPIKey : Option String
  redisHost : Option String
  redisPort : Option String
  redisPassword : Option String
  port : Option String
  deriving DecidableEq

/-- Go's `os.Getenv`: an absent variable reads as the empty string. -/
def getenv (v : Option String) : String := v.getD ""

/-- The `Config` struct from lines 20-25 of `src/main.go`. -/
structure Config where
  weatherAPIKey : String
  redisHost : String
  redisPort : String
  redisPassword : String
  deriving DecidableEq

/-- Outcome of `main`: a fatal exit before serving, or a started server
holding its config and listen port. -/
inductive StartupResult where
  | fatal (msg : String)
  | started (config : Config) (listenPort : String)
  deriving DecidableEq

/-- The startup sequence of `main` (lines 33-77 of `src/main.go`):
`log.Fatal` when the `.env` load fails, build the config from `os.Getenv`
without checking any value for absence, `log.Fatalf` when the Redis ping
fails, then register the route and listen (default port 3000). -/
def runMain (env : Env) (pingOk : Bool) : StartupResult :=
  if ¬ env.dotenvOk then .fatal "Error loading .env file"
  else
    let config : Config :=
      { weatherAPIKey := getenv env.weatherAPIKey
        redisHost := getenv env.redisHost
        redisPort := getenv env.redisPort
        redisPassword := getenv env.redisPassword }
    if ¬ pingOk then .fatal "Failed to connect to Redis"
    else
      let p := getenv env.port
      .started config (if p = "" then "3000" else p)

/-- A concrete unmarshal stub that always parses, for witnesses. -/
def umConst : String → Option Json := fun s => some (Json.str s)

/-- A concrete unmarshal stub that never parses, for witnesses. -/
def umFail : String → Option Json := fun _ => none

/-- A concrete marshal stub that serializes string payloads, for
witnesses. -/
def mStr : Json → Option String := fun j =>
  match j with
  | .str s => some s
  | _ => none

/-- A concrete marshal stub that always fails, for witnesses. -/
def mFail : Json → Option String := fun _ => none

/-- C1: when the cache read succeeds (a hit), `getWeather` performs no
upstream HTTP call and no cache write (its whole effect trace is the
single cache-hit log line), and whenever the stored string deserializes
it returns that deserialized value with status 200.  In particular a
second request for a city whose cache entry is populated within the TTL
window (so the read is a hit) triggers no upstream call. -/
theorem c1_cache_hit_no_upstream_no_write (city apiKey s : String)
    (upstream : UpstreamResult) (um : String → Option Json)
    (m : Json → Option String) (writeOk : Bool) :
    (getWeather city apiKey (.found s) upstream um m writeOk).2
      = [Effect.log "Serving from cache"] ∧
    upstreamCallCount (getWeather city apiKey (.found s) upstream um m writeOk).2 = 0 ∧
    cacheWriteCount (getWeather city apiKey (.found s) upstream um m writeOk).2 = 0 ∧
    (∀ v, um s = some v →
      (getWeather city apiKey (.found s) upstream um m writeOk).1 = ⟨200, v⟩) := by
  refine ⟨rfl, rfl, rfl, ?_⟩
  intro v hv
  simp [getWeather, hv]

/-- C1 witness: a concrete hit run returning the deserialized value. -/
theorem c1_witness :
    (getWeather "Boston" "k" (.found "w") .netErr umConst mFail true).1
      = ⟨200, Json.str "w"⟩ :=
  (c1_cache_hit_no_upstream_no_write "Boston" "k" "w" .netErr umConst mFail true).2.2.2
    (Json.str "w") rfl

/-- C2: the derived cache key is the string "weather:" followed by the
lowercase form of the city; two cities equal under case-insensitive
comparison (equal lowercase forms) derive the same key; and the empty
city yields the literal key "weather:" with no special-casing. -/
theorem c2_cache_key_derivation (city c1 c2 : String) :
    cacheKeyFor city = "weather:" ++ toLowerGo city ∧
    (toLowerGo c1 = toLowerGo c2 → cacheKeyFor c1 = cacheKeyFor c2) ∧
    cacheKeyFor "" = "weather:" := by
  refine ⟨rfl, ?_, rfl⟩
  intro h
  simp [cacheKeyFor, h]

/-- C2 witness: two casings of the same city derive the same key, at a
concrete input. -/
theorem c2_witness : toLowerGo "BoStoN" = toLowerGo "boston" ∧
    cacheKeyFor "BoStoN" = cacheKeyFor "boston" :=
  ⟨by decide, (c2_cache_key_derivation "x" "BoStoN" "boston").2.1 (by decide)⟩

/-- C7: a cache read failing with any error other than the not-found
sentinel yields exactly the response of a sentinel miss — the error is
logged in front of the otherwise identical effect trace and never
surfaced to the client — and such a request can still succeed (a
concrete error-read run with a healthy upstream returns 200 with the
fetched payload). -/
theorem c7_read_error_treated_as_miss (city apiKey e : String)
    (upstream : UpstreamResult) (um : String → Option Json)
    (m : Json → Option String) (writeOk : Bool) :
    (getWeather city apiKey (.readErr e) upstream um m writeOk).1
      = (getWeather city apiKey .redisNil upstream um m writeOk).1 ∧
    (getWeather city apiKey (.readErr e) upstream um m writeOk).2
      = Effect.log ("Redis error: " ++ e)
          :: (getWeather city apiKey .redisNil upstream um m writeOk).2 ∧
    (getWeather city apiKey (.readErr e) (.resp 200 "b") umConst mStr true).1
      = ⟨200, Json.str "b"⟩ :=
  ⟨rfl, rfl, rfl⟩

/-- C8: when the cache read succeeds but the stored string does not
deserialize, `getWeather` neither falls back to upstream nor errors: the
deserialization error is discarded and it returns status 200 with body
JSON null (the zero value), with no upstream call and no cache write. -/
theorem c8_corrupt_hit_returns_null (city apiKey s : String)
    (upstream : UpstreamResult) (um : String → Option Json)
    (m : Json → Option String) (writeOk : Bool)
    (h : um s = none) :
    getWeather city apiKey (.found s) upstream um m writeOk
      = (⟨200, Json.null⟩, [Effect.log "Serving from cache"]) := by
  simp [getWeather, h]

/-- C8 witness: a concrete corrupt-hit run. -/
theorem c8_witness :
    getWeather "Boston" "k" (.found "notjson") .netErr umFail mStr true
      = (⟨200, Json.null⟩, [Effect.log "Serving from cache"]) :=
  c8_corrupt_hit_returns_null "Boston" "k" "notjson" .netErr umFail mStr true rfl

/-- C3 counterexample: the claim says every 2xx response with a parseable
JSON body yields success, but the code tests `resp.StatusCode !=
http.StatusOK`, i.e. exactly 200: a 201 response whose body parses is
still turned into the error response carrying status 201. -/
theorem c3_counterexample :
    (200 ≤ 201 ∧ 201 < 300) ∧
    umConst "b" = some (Json.str "b") ∧
    (getWeather "x" "k" .redisNil (.resp 201 "b") umConst mStr true).1
      = ⟨201, errBody "Invalid city or API error"⟩ :=
  ⟨by decide, rfl, rfl⟩

/-- C3 amended: on a cache miss, `getWeather` treats the upstream
response as a fetch error exactly when its HTTP status differs from 200
(not the whole 2xx range): every 200 response with a parseable JSON body
yields success, and every non-200 response — other 2xx codes included —
yields an error response whose HTTP status is the upstream's own status
code. -/
theorem c3_status_200_exactly (city apiKey body : String) (status : Nat)
    (um : String → Option Json) (m : Json → Option String) (writeOk : Bool) :
    (∀ v, status = 200 → um body = some v →
      (getWeather city apiKey .redisNil (.resp status body) um m writeOk).1
        = ⟨200, v⟩) ∧
    (status ≠ 200 →
      (getWeather city apiKey .redisNil (.resp status body) um m writeOk).1
        = ⟨status, errBody "Invalid city or API error"⟩) := by
  constructor
  · intro v hs hv
    subst hs
    simp [getWeather, fetchMiss, hv]
    cases m v <;> simp
  · intro hs
    simp [getWeather, fetchMiss, hs]

/-- C3 witness: a 200 run succeeding and a 404 run propagating 404, at
concrete inputs. -/
theorem c3_witness :
    (getWeather "x" "k" .redisNil (.resp 200 "b") umConst mStr true).1
      = ⟨200, Json.str "b"⟩ ∧
    (getWeather "x" "k" .redisNil (.resp 404 "b") umConst mStr true).1
      = ⟨404, errBody "Invalid city or API error"⟩ :=
  ⟨(c3_status_200_exactly "x" "k" "b" 200 umConst mStr true).1
      (Json.str "b") rfl rfl,
   (c3_status_200_exactly "x" "k" "b" 404 umConst mStr true).2 (by decide)⟩

/-- C4: on every upstream failure the handler writes nothing to the cache
and answers with a single-field error object: an unreachable upstream
yields status 500 with message "Failed to fetch weather data", an
upstream rejection (status other than the success status) carries the
upstream's own status code, and a success status with an unparseable
body yields status 500 with the parse-failure message, each with zero
cache-write effects. -/
theorem c4_failure_no_write_error_body (city apiKey body : String)
    (status : Nat) (um : String → Option Json) (m : Json → Option String)
    (writeOk : Bool) :
    (cacheWriteCount (getWeather city apiKey .redisNil .netErr um m writeOk).2 = 0 ∧
      (getWeather city apiKey .redisNil .netErr um m writeOk).1
        = ⟨500, errBody "Failed to fetch weather data"⟩) ∧
    (status ≠ 200 →
      cacheWriteCount
          (getWeather city apiKey .redisNil (.resp status body) um m writeOk).2 = 0 ∧
      (getWeather city apiKey .redisNil (.resp status body) um m writeOk).1
        = ⟨status, errBody "Invalid city or API error"⟩) ∧
    (um body = none →
      cacheWriteCount
          (getWeather city apiKey .redisNil (.resp 200 body) um m writeOk).2 = 0 ∧
      (getWeather city apiKey .redisNil (.resp 200 body) um m writeOk).1
        = ⟨500, errBody "Failed to parse weather data"⟩) := by
  refine ⟨⟨rfl, rfl⟩, ?_, ?_⟩
  · intro hs
    constructor <;>
      simp [getWeather, fetchMiss, hs, cacheWriteCount, Effect.isCacheWrite]
  · intro hu
    constructor <;>
      simp [getWeather, fetchMiss, hu, cacheWriteCount, Effect.isCacheWrite]

/-- C4 witness: the 404-rejection and unparseable-body cases at concrete
inputs. -/
theorem c4_witness :
    (cacheWriteCount (getWeather "x" "k" .redisNil (.resp 404 "b") umConst mStr true).2 = 0 ∧
      (getWeather "x" "k" .redisNil (.resp 404 "b") umConst mStr true).1
        = ⟨404, errBody "Invalid city or API error"⟩) ∧
    (cacheWriteCount (getWeather "x" "k" .redisNil (.resp 200 "b") umFail mStr true).2 = 0 ∧
      (getWeather "x" "k" .redisNil (.resp 200 "b") umFail mStr true).1
        = ⟨500, errBody "Failed to parse weather data"⟩) :=
  ⟨(c4_failure_no_write_error_body "x" "k" "b" 404 umConst mStr true).2.1 (by decide),
   (c4_failure_no_write_error_body "x" "k" "b" 404 umFail mStr true).2.2 rfl⟩

/-- C5: after a miss whose upstream fetch succeeds (status 200, body
parses to a payload) and whose payload serializes, the handler performs
exactly one cache write, and that write maps the derived key to the
serialized payload with an expiry of exactly 43200 seconds (12 hours). -/
theorem c5_single_write_12h (city apiKey body serialized : String)
    (v : Json) (um : String → Option Json) (m : Json → Option String)
    (writeOk : Bool) (hu : um body = some v) (hm : m v = some serialized) :
    cacheWriteCount
        (getWeather city apiKey .redisNil (.resp 200 body) um m writeOk).2 = 1 ∧
    Effect.cacheWrite (cacheKeyFor city) serialized 43200
      ∈ (getWeather city apiKey .redisNil (.resp 200 body) um m writeOk).2 := by
  cases writeOk <;>
    constructor <;>
      simp [getWeather, fetchMiss, hu, hm, cacheWriteCount,
        Effect.isCacheWrite, List.filter]

/-- C5 witness: the concrete write effect of a successful miss run. -/
theorem c5_witness :
    cacheWriteCount
        (getWeather "BoStoN" "k" .redisNil (.resp 200 "b") umConst mStr true).2 = 1 ∧
    Effect.cacheWrite "weather:boston" "b" 43200
      ∈ (getWeather "BoStoN" "k" .redisNil (.resp 200 "b") umConst mStr true).2 := by
  have h := c5_single_write_12h "BoStoN" "k" "b" "b" (Json.str "b")
    umConst mStr true rfl rfl
  exact ⟨h.1, h.2⟩

/-- C6: when, after a successful upstream fetch, serialization of the
payload fails or the cache-store write fails, the handler still returns
the freshly fetched payload with status 200; the failure is recorded
only as a log line, never as a request failure. -/
theorem c6_write_failure_nonfatal (city apiKey body : String) (v : Json)
    (um : String → Option Json) (m : Json → Option String)
    (hu : um body = some v) :
    (m v = none →
      (getWeather city apiKey .redisNil (.resp 200 body) um m true).1 = ⟨200, v⟩ ∧
      Effect.log "Failed to marshal weather data"
        ∈ (getWeather city apiKey .redisNil (.resp 200 body) um m true).2) ∧
    ((getWeather city apiKey .redisNil (.resp 200 body) um m false).1 = ⟨200, v⟩ ∧
      (∀ s, m v = some s →
        Effect.log "Failed to cache weather data"
          ∈ (getWeather city apiKey .redisNil (.resp 200 body) um m false).2)) := by
  refine ⟨?_, ?_, ?_⟩
  · intro hm
    constructor <;> simp [getWeather, fetchMiss, hu, hm]
  · simp [getWeather, fetchMiss, hu]
    cases m v <;> simp
  · intro s hm
    simp [getWeather, fetchMiss, hu, hm]

/-- C6 witness: a failed marshal and a failed store write, each still
answering 200 with the fetched payload. -/
theorem c6_witness :
    ((getWeather "x" "k" .redisNil (.resp 200 "b") umConst mFail true).1
        = ⟨200, Json.str "b"⟩ ∧
      Effect.log "Failed to marshal weather data"
        ∈ (getWeather "x" "k" .redisNil (.resp 200 "b") umConst mFail true).2) ∧
    ((getWeather "x" "k" .redisNil (.resp 200 "b") umConst mStr false).1
        = ⟨200, Json.str "b"⟩ ∧
      Effect.log "Failed to cache weather data"
        ∈ (getWeather "x" "k" .redisNil (.resp 200 "b") umConst mStr false).2) :=
  ⟨(c6_write_failure_nonfatal "x" "k" "b" (Json.str "b") umConst mFail rfl).1 rfl,
   ⟨(c6_write_failure_nonfatal "x" "k" "b" (Json.str "b") umConst mStr rfl).2.1,
    (c6_write_failure_nonfatal "x" "k" "b" (Json.str "b") umConst mStr rfl).2.2 "b" rfl⟩⟩

/-- C9: for every city, the upstream request URL is the provider base
URL, a slash, the city verbatim in its original casing, then "?key=" and
the API key; every miss run issues its upstream call with exactly that
URL (it is the first effect of the trace); and the URL uses the original
casing, not the lowercased form used for the cache key (shown at a
concrete mixed-case city). -/
theorem c9_url_verbatim_city (city apiKey : String)
    (upstream : UpstreamResult) (um : String → Option Json)
    (m : Json → Option String) (writeOk : Bool) :
    requestURL city apiKey
      = providerBaseURL ++ "/" ++ city ++ "?key=" ++ apiKey ∧
    (getWeather city apiKey .redisNil upstream um m writeOk).2.head?
      = some (Effect.upstreamCall
          (providerBaseURL ++ "/" ++ city ++ "?key=" ++ apiKey)) ∧
    requestURL "Boston" "k" ≠ requestURL (toLowerGo "Boston") "k" := by
  refine ⟨rfl, ?_, by decide⟩
  cases upstream with
  | netErr => rfl
  | resp status body =>
      by_cases hs : status = 200
      · subst hs
        cases hu : um body with
        | none => simp [getWeather, fetchMiss, hu, requestURL]
        | some v =>
            cases hm : m v <;>
              simp [getWeather, fetchMiss, hu, hm, requestURL]
      · simp [getWeather, fetchMiss, hs, requestURL]

/-- C10 counterexample: the claim says an absent API key is
startup-fatal, but `main` never checks any individual configuration
value for absence: with the `.env` file loading, the API key absent, the
Redis values present and the Redis ping succeeding, startup completes
and the server starts (config carrying the empty API key), instead of
exiting. -/
theorem c10_counterexample :
    (Env.mk true none (some "localhost") (some "6379") (some "pw")
        (some "3000")).weatherAPIKey = none ∧
    runMain
        (Env.mk true none (some "localhost") (some "6379") (some "pw")
          (some "3000")) true
      = StartupResult.started ⟨"", "localhost", "6379", "pw"⟩ "3000" :=
  ⟨rfl, rfl⟩

/-- C10 amended: only a failed `.env` load or a failed initial Redis
connectivity check is startup-fatal (the process exits serving no
requests); absent individual configuration values — API key, cache
host, port, credential — are read as empty strings and never checked,
so they do not by themselves prevent startup. -/
theorem c10_fatal_conditions (env : Env) (pingOk : Bool) :
    (env.dotenvOk = false →
      runMain env pingOk = .fatal "Error loading .env file") ∧
    (env.dotenvOk = true → pingOk = false →
      runMain env pingOk = .fatal "Failed to connect to Redis") ∧
    (env.dotenvOk = true → pingOk = true →
      runMain env pingOk
        = .started
            ⟨getenv env.weatherAPIKey, getenv env.redisHost,
              getenv env.redisPort, getenv env.redisPassword⟩
            (if getenv env.port = "" then "3000" else getenv env.port)) := by
  refine ⟨?_, ?_, ?_⟩
  · intro h; simp [runMain, h]
  · intro h hp; simp [runMain, h, hp]
  · intro h hp; simp [runMain, h, hp]

/-- C10 witness: the three startup outcomes at concrete environments. -/
theorem c10_witness :
    runMain (Env.mk false none none none none none) true
      = .fatal "Error loading .env file" ∧
    runMain (Env.mk true (some "key") (some "h") (some "p") (some "pw") none) false
      = .fatal "Failed to connect to Redis" ∧
    runMain (Env.mk true (some "key") (some "h") (some "p") (some "pw") none) true
      = .started ⟨"key", "h", "p", "pw"⟩ "3000" :=
  ⟨(c10_fatal_conditions (Env.mk false none none none none none) true).1 rfl,
   (c10_fatal_conditions
      (Env.mk true (some "key") (some "h") (some "p") (some "pw") none) false).2.1
     rfl rfl,
   (c10_fatal_conditions
      (Env.mk true (some "key") (some "h") (some "p") (some "pw") none) true).2.2
     rfl rfl⟩

end WeatherProxy
